import Mathlib

/-!
Verification of the slot-filling intake dialogue engine of the
AI-Powered-Medical-Appointment-Scheduling-Agent repository.

The definitions below are a shallow embedding of the Python sources:
  * `src/agents/extract.py`  — `infer_inline_updates`, `safe_json_loads`,
    `node_extract` (the per-turn merge),
  * `src/agents/nodes.py`    — the dialog stage nodes,
  * `src/agents/flow.py`     — the linear stage graph,
  * `src/agents/utils.py`    — `assign_duration`,
  * `src/agents/schema.py`   — `PatientIntake` and its age-derivation
    validator.
Machine strings are Lean `String`s, Python `None` is `Option.none`,
Pydantic truthiness checks are made explicit, and the ambient current
date (`date.today()`) is an explicit `today : Date` argument.
-/

namespace Intake

/-! ## Calendar dates (models Python `datetime.date` / `strptime "%Y-%m-%d"`) -/

structure Date where
  year : Nat
  month : Nat
  day : Nat
deriving DecidableEq, Repr

def isLeap (y : Nat) : Bool :=
  (y % 4 == 0 && y % 100 != 0) || (y % 400 == 0)

def daysInMonth (y m : Nat) : Nat :=
  if m == 2 then (if isLeap y then 29 else 28)
  else if m == 4 || m == 6 || m == 9 || m == 11 then 30
  else 31

def isDigitChar (c : Char) : Bool := c.isDigit

def allDigits (s : String) : Bool := s.toList.all isDigitChar

def natOfDigits (s : String) : Nat :=
  s.toList.foldl (fun a c => a * 10 + (c.toNat - 48)) 0

/-- The whitespace set of Python `str.strip()` / `\s`. -/
def pySpace (c : Char) : Bool :=
  c == ' ' || c == '\t' || c == '\n' || c == '\r' ||
    c == Char.ofNat 11 || c == Char.ofNat 12

/-- Python `str.strip()`. -/
def pyStrip (s : String) : String :=
  String.mk (((s.toList.dropWhile pySpace).reverse.dropWhile pySpace).reverse)

/-- Python `str.lower()` (ASCII case mapping). -/
def lowerStr (s : String) : String :=
  String.mk (s.toList.map Char.toLower)

/-- Python `str.rstrip(".")`. -/
def rstripDots (s : String) : String :=
  String.mk ((s.toList.reverse.dropWhile fun c => c == '.').reverse)

/-- Does `pre` occur at the head of `cs`? (`str.startswith`). -/
def isPrefixL : List Char → List Char → Bool
  | [], _ => true
  | _ :: _, [] => false
  | p :: ps, c :: cs => p == c && isPrefixL ps cs

def startsWithStr (s pre : String) : Bool :=
  isPrefixL pre.toList s.toList

/-- Split at every occurrence of the separator `s0 :: srest`
(Python `str.split(sep)` semantics for a non-empty separator).  The
`fuel` argument keeps the recursion structural; every step consumes at
least one character, so `fuel = cs.length` suffices. -/
def splitOnAux (s0 : Char) (srest : List Char) :
    Nat → List Char → List Char → List (List Char)
  | _, [], acc => [acc.reverse]
  | 0, _ :: _, acc => [acc.reverse]
  | fuel + 1, c :: cs, acc =>
    if isPrefixL (s0 :: srest) (c :: cs) then
      acc.reverse :: splitOnAux s0 srest fuel (cs.drop srest.length) []
    else
      splitOnAux s0 srest fuel cs (c :: acc)

def splitOnStr (s sep : String) : List String :=
  match sep.toList with
  | [] => [s]
  | s0 :: srest =>
    (splitOnAux s0 srest s.toList.length s.toList []).map String.mk

/-- Replace every occurrence of the non-empty pattern `p0 :: prest` by
`rep`, left to right (Python `str.replace`); fuel as in `splitOnAux`. -/
def replaceAux (p0 : Char) (prest rep : List Char) :
    Nat → List Char → List Char
  | _, [] => []
  | 0, l => l
  | fuel + 1, c :: cs =>
    if isPrefixL (p0 :: prest) (c :: cs) then
      rep ++ replaceAux p0 prest rep fuel (cs.drop prest.length)
    else
      c :: replaceAux p0 prest rep fuel cs

def replaceStr (s pat rep : String) : String :=
  match pat.toList with
  | [] => s
  | p0 :: prest =>
    String.mk (replaceAux p0 prest rep.toList s.toList.length s.toList)

/-- Models `datetime.strptime(s, "%Y-%m-%d")` as used by
`schema.PatientIntake.derive_age_from_dob`: a 4-digit year of at least
`datetime.MINYEAR = 1` (the 4-digit shape already bounds it by
`MAXYEAR = 9999`), a 1–2 digit month in 1..12, a 1–2 digit day that is
valid for that month and year; the whole string must be consumed.
Returns `none` where Python raises. -/
def parseYMD (s : String) : Option Date :=
  match splitOnStr s "-" with
  | [ys, ms, ds] =>
    if ys.length == 4 && allDigits ys &&
       (ms.length == 1 || ms.length == 2) && allDigits ms &&
       (ds.length == 1 || ds.length == 2) && allDigits ds then
      let y := natOfDigits ys
      let m := natOfDigits ms
      let d := natOfDigits ds
      if 1 ≤ y && 1 ≤ m && m ≤ 12 && 1 ≤ d && d ≤ daysInMonth y m then
        some ⟨y, m, d⟩
      else none
    else none
  | _ => none

/-- Python tuple comparison `(m1, d1) < (m2, d2)`. -/
def pairLt (a b : Nat × Nat) : Bool :=
  a.1 < b.1 || (a.1 == b.1 && a.2 < b.2)

/-- The age computation of `derive_age_from_dob`:
`today.year - dob.year - ((today.month, today.day) < (dob.month, dob.day))`. -/
def ageOn (today dob : Date) : Int :=
  (today.year : Int) - (dob.year : Int) -
    (if pairLt (today.month, today.day) (dob.month, dob.day) then 1 else 0)

/-! ## Character classes and the regular expressions of `extract.py` -/

def isWordChar (c : Char) : Bool := c.isAlphanum || c == '_'

def isAsciiAlpha (c : Char) : Bool :=
  ('a' ≤ c && c ≤ 'z') || ('A' ≤ c && c ≤ 'Z')

def isAsciiUpper (c : Char) : Bool := 'A' ≤ c && c ≤ 'Z'

def isAlnumAscii (c : Char) : Bool := isAsciiAlpha c || c.isDigit

/-- Class `[A-Z0-9._%+-]` under `re.I`. -/
def isEmailLocalChar (c : Char) : Bool :=
  isAlnumAscii c || c == '.' || c == '_' || c == '%' || c == '+' || c == '-'

/-- Class `[A-Z0-9.-]` under `re.I`. -/
def isEmailDomainChar (c : Char) : Bool :=
  isAlnumAscii c || c == '.' || c == '-'

/-- Class `[A-Za-z .'-]` of `NAME_RE`. -/
def isNameTailChar (c : Char) : Bool :=
  isAsciiAlpha c || c == ' ' || c == '.' || c == Char.ofNat 39 || c == '-'

/-- Class `[a-zA-Z.-]` of `DR_RE`. -/
def isDrTailChar (c : Char) : Bool :=
  isAsciiAlpha c || c == '.' || c == '-'

/-- Length of the maximal prefix of `cs` whose characters satisfy `f`. -/
def runLen (f : Char → Bool) : List Char → Nat
  | [] => 0
  | c :: cs => if f c then runLen f cs + 1 else 0

/-- `\b` between the character (just) before position `p` and the one at `p`. -/
def boundary (before after : Option Char) : Bool :=
  (match before with | some c => isWordChar c | none => false) !=
  (match after with | some c => isWordChar c | none => false)

/-- First index `j < n` scanning downward from `n - 1` such that `f j`. -/
def findLastIdx (f : Nat → Bool) : Nat → Option Nat
  | 0 => none
  | n + 1 => if f n then some n else findLastIdx f n

/-- First index `j < n` scanning upward such that `f j`. -/
def findFirstIdxAux (f : Nat → Bool) (n : Nat) : Nat → Option Nat
  | 0 => none
  | fuel + 1 =>
    let j := n - (fuel + 1)
    if f j then some j else findFirstIdxAux f n fuel

def findFirstIdx (f : Nat → Bool) (n : Nat) : Option Nat :=
  findFirstIdxAux f n n

/-- Attempt to match `EMAIL_RE = [A-Z0-9._%+-]+@[A-Z0-9.-]+\.[A-Z]{2,}` (re.I)
at the head of `cs`; returns the matched characters.  The local part is a
maximal class run (the class excludes `@`, so greediness never backtracks);
the domain backtracks from the longest run to find `\.[A-Z]{2,}`. -/
def emailMatchAt (cs : List Char) : Option (List Char) :=
  let ll := runLen isEmailLocalChar cs
  if ll == 0 then none
  else
    let rest := cs.drop ll
    match rest with
    | '@' :: afterAt =>
      let run := afterAt.take (runLen isEmailDomainChar afterAt)
      -- greedy: the largest j with run[j] = '.' followed by ≥ 2 letters
      let ok := fun j : Nat =>
        (run.get? j == some '.') &&
          decide (2 ≤ runLen isAsciiAlpha (run.drop (j + 1)))
      match findLastIdx ok run.length with
      | some j =>
        let tld := (run.drop (j + 1)).take (runLen isAsciiAlpha (run.drop (j + 1)))
        some (cs.take ll ++ '@' :: run.take j ++ '.' :: tld)
      | none => none
    | _ => none

/-- `EMAIL_RE.search`: leftmost match, as a `String`. -/
def emailSearch (t : String) : Option String :=
  let cs := t.toList
  match findFirstIdx (fun i => (emailMatchAt (cs.drop i)).isSome) cs.length with
  | some i => (emailMatchAt (cs.drop i)).map fun m => String.mk m
  | none => none

/-- Attempt `DOB_RE = \b(19|20)\d{2}-\d{2}-\d{2}\b` at offset `i` of `cs`. -/
def dobMatchAt (cs : List Char) (i : Nat) : Bool :=
  let sub := cs.drop i
  (match sub with
   | a :: b :: c :: d :: '-' :: e :: f :: '-' :: g :: h :: _ =>
     ((a == '1' && b == '9') || (a == '2' && b == '0')) &&
       c.isDigit && d.isDigit && e.isDigit && f.isDigit && g.isDigit && h.isDigit
   | _ => false) &&
  boundary (if i == 0 then none else cs.get? (i - 1)) (cs.get? i) &&
  boundary (cs.get? (i + 9)) (cs.get? (i + 10))

/-- `DOB_RE.search`: the matched 10-character substring, if any. -/
def dobSearch (t : String) : Option String :=
  let cs := t.toList
  match findFirstIdx (fun i => dobMatchAt cs i) cs.length with
  | some i => some (String.mk ((cs.drop i).take 10))
  | none => none

/-- `re.fullmatch(r"\d{4}-\d{2}-\d{2}", t)`. -/
def fullmatchYMD (t : String) : Bool :=
  match t.toList with
  | [a, b, c, d, '-', e, f, '-', g, h] =>
    a.isDigit && b.isDigit && c.isDigit && d.isDigit &&
      e.isDigit && f.isDigit && g.isDigit && h.isDigit
  | _ => false

/-- Case-insensitive literal match of `pat` at the head of `cs`. -/
def litMatchCI : List Char → List Char → Bool
  | [], _ => true
  | _ :: _, [] => false
  | p :: ps, c :: cs => p.toLower == c.toLower && litMatchCI ps cs

/-- Attempt `NAME_RE = \bmy name is\s+([A-Za-z][A-Za-z .'-]{1,60})` (re.I)
at offset `i`; returns group 1. -/
def nameMatchAt (cs : List Char) (i : Nat) : Option (List Char) :=
  let sub := cs.drop i
  if boundary (if i == 0 then none else cs.get? (i - 1)) (cs.get? i) &&
     litMatchCI "my name is".toList sub then
    let afterLit := sub.drop 10
    let ws := runLen pySpace afterLit
    if ws == 0 then none
    else
      match afterLit.drop ws with
      | c :: rest =>
        if isAsciiAlpha c then
          -- `{1,60}`: at least one tail character is required
          let tail := min 60 (runLen isNameTailChar rest)
          if tail == 0 then none else some (c :: rest.take tail)
        else none
      | [] => none
  else none

/-- `NAME_RE.search` returning group 1. -/
def nameSearch (t : String) : Option String :=
  let cs := t.toList
  match findFirstIdx (fun i => (nameMatchAt cs i).isSome) cs.length with
  | some i => (nameMatchAt cs i).map fun m => String.mk m
  | none => none

/-- Attempt `DR_RE = \bDr\.?\s+[A-Z][a-zA-Z.-]{1,40}\b` (case sensitive)
at offset `i`; returns group 0. -/
def drMatchAt (cs : List Char) (i : Nat) : Option (List Char) :=
  let sub := cs.drop i
  if boundary (if i == 0 then none else cs.get? (i - 1)) (cs.get? i) then
    match sub with
    | 'D' :: 'r' :: rest0 =>
      -- `\.?` greedy: try consuming a dot first, else without
      let tryTail : List Char → List Char → Option (List Char) := fun pre rest =>
        let ws := runLen pySpace rest
        if ws == 0 then none
        else
          match rest.drop ws with
          | u :: tl =>
            if isAsciiUpper u then
              let maxTail := min 40 (runLen isDrTailChar tl)
              -- `{1,40}` greedy with a trailing `\b`: longest k ≥ 1 first;
              -- after k tail chars the boundary is between tl[k-1] and tl[k]
              let okLen := fun kpred : Nat =>
                let k := kpred + 1
                decide (k ≤ maxTail) &&
                  boundary (tl.get? (k - 1)) (tl.get? k)
              match findLastIdx okLen maxTail with
              | some kpred =>
                some (pre ++ rest.take ws ++ u :: tl.take (kpred + 1))
              | none => none
            else none
          | [] => none
      (match rest0 with
       | '.' :: rest1 =>
         match tryTail ['D', 'r', '.'] rest1 with
         | some m => some m
         | none => tryTail ['D', 'r'] rest0
       | _ => tryTail ['D', 'r'] rest0)
    | _ => none
  else none

/-- `DR_RE.search` returning group 0. -/
def drSearch (t : String) : Option String :=
  let cs := t.toList
  match findFirstIdx (fun i => (drMatchAt cs i).isSome) cs.length with
  | some i => (drMatchAt cs i).map fun m => String.mk m
  | none => none

/-- `doc.replace("Dr", "Dr.")` followed by `.strip()` under the guard
`not doc.lower().startswith("dr.")`, from the doctor branches of
`infer_inline_updates`. -/
def normalizeDr (doc : String) : String :=
  let doc :=
    if !(startsWithStr (lowerStr doc) "dr.") then replaceStr doc "Dr" "Dr." else doc
  pyStrip doc

/-- `re.sub(r"[^\d+]", "", t)`: keep digits and plus signs. -/
def keepDigitsPlus (t : String) : String :=
  String.mk (t.toList.filter fun c => c.isDigit || c == '+')

/-- Number of digits left after `re.sub(r"\D", "", ...)`. -/
def digitCount (t : String) : Nat :=
  (t.toList.filter fun c => c.isDigit).length

/-- Python substring test `needle in hay` (non-empty needle). -/
def containsSub (hay needle : String) : Bool :=
  (splitOnStr hay needle).length ≥ 2

/-- Python `str.split()`: split on whitespace runs, dropping empties. -/
def splitWsAux : List Char → List Char → List (List Char)
  | [], cur => if cur.isEmpty then [] else [cur.reverse]
  | c :: cs, cur =>
    if pySpace c then
      (if cur.isEmpty then splitWsAux cs [] else cur.reverse :: splitWsAux cs [])
    else splitWsAux cs (c :: cur)

def splitWs (t : String) : List String :=
  (splitWsAux t.toList []).map String.mk

/-! ## The update keys and the patient record (`schema.PatientIntake`)

The update keys are exactly those that can occur in an update mapping of
the program: the eleven keys of the generative extractor's fixed prompt
schema (`extract.py` lines 195–198), `appointment_date` (set by the
inline inferencer in the `ask_date` context), `age` (derived only), and
the `_yes_no` sentinel of the inline inferencer. -/

inductive Field where
  | name | dob | age | doctor | location | problem | problem_description
  | email | phone
  | insurance_carrier | insurance_member_id | insurance_group
  | appointment_date
  | yesNo
deriving DecidableEq, Repr

/-- A value in an update mapping: a JSON string, the boolean `_yes_no`
sentinel, or an integer. -/
inductive FVal where
  | s (v : String)
  | b (v : Bool)
  | i (v : Int)
deriving DecidableEq, Repr

/-- `schema.PatientIntake`: every field optional, `None` by default. -/
structure PatientIntake where
  name : Option String := none
  dob : Option String := none
  age : Option Int := none
  doctor : Option String := none
  location : Option String := none
  problem : Option String := none
  problem_description : Option String := none
  email : Option String := none
  phone : Option String := none
  insurance_carrier : Option String := none
  insurance_member_id : Option String := none
  insurance_group : Option String := none
  returning_patient : Option Bool := none
  appointment_duration_min : Option Int := none
  appointment_date : Option String := none
  appointment_start : Option String := none
  appointment_end : Option String := none
deriving DecidableEq, Repr

/-- `getattr(patient, k, None)` for the update keys. -/
def getF (p : PatientIntake) : Field → Option FVal
  | .name => p.name.map .s
  | .dob => p.dob.map .s
  | .age => p.age.map .i
  | .doctor => p.doctor.map .s
  | .location => p.location.map .s
  | .problem => p.problem.map .s
  | .problem_description => p.problem_description.map .s
  | .email => p.email.map .s
  | .phone => p.phone.map .s
  | .insurance_carrier => p.insurance_carrier.map .s
  | .insurance_member_id => p.insurance_member_id.map .s
  | .insurance_group => p.insurance_group.map .s
  | .appointment_date => p.appointment_date.map .s
  | .yesNo => none

/-- `setattr(patient, k, v)`.  The `_yes_no` key is stored by Python as a
non-model attribute and discarded by the `PatientIntake(**model_dump())`
rebuild at the end of `node_extract`, so at record granularity it is a
no-op; a value of the wrong shape for a field cannot be produced by the
embedded update sources. -/
def setF (p : PatientIntake) (k : Field) (v : FVal) : PatientIntake :=
  match k, v with
  | .name, .s x => { p with name := some x }
  | .dob, .s x => { p with dob := some x }
  | .age, .i x => { p with age := some x }
  | .doctor, .s x => { p with doctor := some x }
  | .location, .s x => { p with location := some x }
  | .problem, .s x => { p with problem := some x }
  | .problem_description, .s x => { p with problem_description := some x }
  | .email, .s x => { p with email := some x }
  | .phone, .s x => { p with phone := some x }
  | .insurance_carrier, .s x => { p with insurance_carrier := some x }
  | .insurance_member_id, .s x => { p with insurance_member_id := some x }
  | .insurance_group, .s x => { p with insurance_group := some x }
  | .appointment_date, .s x => { p with appointment_date := some x }
  | _, _ => p

/-- `getattr(patient, k, None) in (None, "", False)` — the merge guard of
`node_extract`.  Python `in` compares with `==`, under which `0 == False`. -/
def fieldEmpty (p : PatientIntake) (k : Field) : Bool :=
  match getF p k with
  | none => true
  | some (.s x) => x == ""
  | some (.b x) => x == false
  | some (.i x) => x == 0

/-- `isinstance(v, str) and not v.strip()` — blank strings are skipped by
the extractor-side merge loop. -/
def isBlank (v : FVal) : Bool :=
  match v with
  | .s x => pyStrip x == ""
  | _ => false

/-- Python truthiness of an optional string (`not p.field`). -/
def strFalsy (o : Option String) : Bool :=
  match o with
  | none => true
  | some s => s == ""

/-- Python truthiness of an optional bool (`if p.returning_patient:`). -/
def boolTruthy (o : Option Bool) : Bool :=
  match o with
  | none => false
  | some b => b

/-- Python truthiness of an optional int (`p.appointment_duration_min or _`). -/
def intTruthy (o : Option Int) : Bool :=
  match o with
  | none => false
  | some n => n != 0

/-- Python truthiness of an `FVal` (`bool(v)`). -/
def fvalTruthy (v : FVal) : Bool :=
  match v with
  | .s x => x != ""
  | .b x => x
  | .i x => x != 0

/-- `utils.assign_duration`: `30 if returning else 60` (`None` is falsy). -/
def assign_duration (returning : Option Bool) : Int :=
  if boolTruthy returning then 30 else 60

/-- `(x or "")` for an optional string. -/
def orEmpty (o : Option String) : String := o.getD ""

/-- The model validator `schema.PatientIntake.derive_age_from_dob`, run by
`PatientIntake(**patient.model_dump())` at the end of `node_extract`:
derive `age` when `age` is `None` and `dob` is truthy and parses;
a parse failure is swallowed (`except Exception: pass`). -/
def rebuild (today : Date) (p : PatientIntake) : PatientIntake :=
  match p.age with
  | some _ => p
  | none =>
    match p.dob with
    | none => p
    | some s =>
      if s == "" then p
      else
        match parseYMD s with
        | some d => { p with age := some (ageOn today d) }
        | none => p

/-! ## The context-aware inline inferencer (`extract.infer_inline_updates`)

An update mapping is a `List (Field × FVal)` in dict insertion order. -/

def anyDoctorTokens : List String := ["any", "any doctor", "no", "none", "na"]

def yesTokens : List String := ["yes", "y", "yeah", "yep", "visited", "i have"]

def noTokens : List String := ["no", "n", "new", "first time"]

def selfPayTokens : List String := ["no", "none", "no insurance", "self pay", "self-pay"]

/-- The `ask_problem` symptom map, in dict insertion order. -/
def problemSymptomMap : List (String × String) :=
  [("coughing", "cough"), ("cough", "cough"), ("fever", "fever"),
   ("allergy", "allergies"), ("allergies", "allergies"),
   ("tooth", "tooth pain"), ("toothache", "tooth pain"),
   ("headache", "headache"), ("cold", "cold"), ("pain", "pain")]

/-- The context-agnostic symptom keyword guard list. -/
def symptomGuardWords : List String :=
  ["fever", "allergy", "allergies", "toothache", "tooth", "pain",
   "cough", "coughing", "cold", "headache"]

/-- The context-agnostic symptom map, in dict insertion order
(`toothache` precedes `tooth` here, unlike the `ask_problem` map). -/
def agnosticSymptomMap : List (String × String) :=
  [("coughing", "cough"), ("cough", "cough"), ("fever", "fever"),
   ("allergy", "allergies"), ("allergies", "allergies"),
   ("toothache", "tooth pain"), ("tooth", "tooth pain"),
   ("headache", "headache"), ("cold", "cold"), ("pain", "pain")]

/-- First symptom-map entry whose key occurs in `low`. -/
def firstSymptomHit (m : List (String × String)) (low : String) : Option String :=
  match m.find? fun kv => containsSub low kv.1 with
  | some kv => some kv.2
  | none => none

/-- The context-agnostic fallback section of `infer_inline_updates`
(`extract.py` lines 126–191).  The generic insurance block at lines
170–185 is dead code: it sits inside the symptom-keyword branch after
that branch's unconditional `return`, so it contributes nothing here. -/
def agnosticUpdates (t low : String) : List (Field × FVal) :=
  match emailSearch t with
  | some e => [(.email, .s e)]
  | none =>
    if digitCount t ≥ 10 then [(.phone, .s (keepDigitsPlus t))]
    else
      match dobSearch t with
      | some d => [(.dob, .s d)]
      | none =>
        match nameSearch t with
        | some n => [(.name, .s (pyStrip n))]
        | none =>
          if anyDoctorTokens.contains low then [(.doctor, .s "any doctor")]
          else
            match drSearch t with
            | some doc => [(.doctor, .s (normalizeDr doc))]
            | none =>
              if symptomGuardWords.any fun w => containsSub low w then
                match firstSymptomHit agnosticSymptomMap low with
                | some v => [(.problem, .s v)]
                | none => []
              else
                if fullmatchYMD t then [(.dob, .s t)]
                else []

/-- The `ask_insurance_carrier` branch (positive case): split on
whitespace, drop a leading `yes`, assign up to three tokens positionally;
fall through to the agnostic section when no key was produced. -/
def carrierBranch (t low : String) : List (Field × FVal) :=
  if selfPayTokens.contains low then
    [(.insurance_carrier, .s "self-pay"),
     (.insurance_member_id, .s ""),
     (.insurance_group, .s "")]
  else
    let parts := splitWs t
    let parts :=
      match parts with
      | p0 :: rest => if lowerStr p0 == "yes" then rest else parts
      | [] => parts
    match parts with
    | [] => agnosticUpdates t low
    | [c] => [(.insurance_carrier, .s c)]
    | [c, m] => [(.insurance_carrier, .s c), (.insurance_member_id, .s m)]
    | c :: m :: g :: _ =>
      [(.insurance_carrier, .s c), (.insurance_member_id, .s m),
       (.insurance_group, .s g)]

/-- The `ask_doctor` context block. -/
def doctorCtxBranch (t low : String) : List (Field × FVal) :=
  if anyDoctorTokens.contains low then [(.doctor, .s "any doctor")]
  else
    match drSearch t with
    | some doc => [(.doctor, .s (normalizeDr doc))]
    | none => agnosticUpdates t low

/-- The `ask_returning` context block. -/
def returningCtxBranch (t low : String) : List (Field × FVal) :=
  if yesTokens.contains low then [(.yesNo, .b true)]
  else if noTokens.contains low then [(.yesNo, .b false)]
  else agnosticUpdates t low

/-- The `ask_date` context block. -/
def dateCtxBranch (t low : String) : List (Field × FVal) :=
  if fullmatchYMD t then [(.appointment_date, .s t)]
  else agnosticUpdates t low

/-- The `ask_email` context block. -/
def emailCtxBranch (t low : String) : List (Field × FVal) :=
  match emailSearch t with
  | some e => [(.email, .s e)]
  | none => agnosticUpdates t low

/-- The `ask_phone` context block. -/
def phoneCtxBranch (t low : String) : List (Field × FVal) :=
  if digitCount t ≥ 10 then [(.phone, .s (keepDigitsPlus t))]
  else agnosticUpdates t low

/-- The `ask_insurance_member_id` context block. -/
def memberCtxBranch (t low : String) : List (Field × FVal) :=
  if low == "no" || low == "none" then [(.insurance_member_id, .s "")]
  else [(.insurance_member_id, .s t)]

/-- The `ask_insurance_group` context block. -/
def groupCtxBranch (t low : String) : List (Field × FVal) :=
  if low == "no" || low == "none" then [(.insurance_group, .s "")]
  else [(.insurance_group, .s t)]

/-- The `ask_problem` context block. -/
def problemCtxBranch (t low : String) : List (Field × FVal) :=
  match firstSymptomHit problemSymptomMap low with
  | some label => [(.problem, .s label)]
  | none => [(.problem, .s (if t.length > 50 then t.take 50 else t))]

/-- The `ask_problem_details` context block. -/
def detailsCtxBranch (t : String) : List (Field × FVal) :=
  [(.problem_description, .s (rstripDots (pyStrip t) ++ "."))]

/-- The body of `extract.infer_inline_updates` over the stripped reply
`t` and its lowercasing `low`.  A context block that matches no rule
falls through (Python has no `return` there) to the context-agnostic
section. -/
def inferCore (t low : String) (ctx : Option String) : List (Field × FVal) :=
  if ctx == some "ask_doctor" then doctorCtxBranch t low
  else if ctx == some "ask_returning" then returningCtxBranch t low
  else if ctx == some "ask_date" then dateCtxBranch t low
  else if ctx == some "ask_email" then emailCtxBranch t low
  else if ctx == some "ask_phone" then phoneCtxBranch t low
  else if ctx == some "ask_insurance_carrier" then carrierBranch t low
  else if ctx == some "ask_insurance_member_id" then memberCtxBranch t low
  else if ctx == some "ask_insurance_group" then groupCtxBranch t low
  else if ctx == some "ask_problem" then problemCtxBranch t low
  else if ctx == some "ask_problem_details" then detailsCtxBranch t
  else agnosticUpdates t low

/-- `extract.infer_inline_updates(user_text, context_step)`:
`t = (user_text or "").strip()`, `low = t.lower()`. -/
def infer_inline_updates (user_text : String) (ctx : Option String) :
    List (Field × FVal) :=
  inferCore (pyStrip user_text) (lowerStr (pyStrip user_text)) ctx

/-! ## Turn state (`schema.IntakeState`) and the merge (`extract.node_extract`) -/

/-- `schema.IntakeState` plus the `booking_done` key read by
`node_ensure_insurance`.  Keys that may be absent from the Python
`TypedDict` are `Option`s (`state.get(...)` yields `None`), and
`state.get("booking_done")` defaults to falsy. -/
structure IntakeSt where
  input_text : String := ""
  patient : PatientIntake := {}
  message : Option String := none
  next_step : Option String := none
  inline : List (Field × FVal) := []
  booking_done : Bool := false
deriving DecidableEq, Repr

/-- The inline merge loop of `node_extract` (lines 212–214): every pair is
written unconditionally (`if v is not None: setattr(patient, k, v)`). -/
def applyInline (p : PatientIntake) (upd : List (Field × FVal)) : PatientIntake :=
  upd.foldl (fun p kv => setF p kv.1 kv.2) p

/-- The extractor merge loop of `node_extract` (lines 228–232): blank
strings are skipped, and a pair is written only when the current field is
`None`/`""`/`False`. -/
def applyData (p : PatientIntake) (data : List (Field × FVal)) : PatientIntake :=
  data.foldl
    (fun p kv =>
      if isBlank kv.2 then p
      else if fieldEmpty p kv.1 then setF p kv.1 kv.2 else p)
    p

/-- The two context guards applied to the extractor output before merging:
drop `problem_description` unless the marker is `ask_problem_details`, and
drop `dob` when the marker is `ask_date`. -/
def dataGuards (ctx : Option String) (data : List (Field × FVal)) :
    List (Field × FVal) :=
  data.filter fun kv =>
    !(kv.1 == Field.problem_description && ctx != some "ask_problem_details") &&
    !(kv.1 == Field.dob && ctx == some "ask_date")

/-- `extract.node_extract`.  The generative extractor is an external
oracle; its parsed output (restricted to the prompt's fixed key schema)
is the explicit argument `data`.  The final
`PatientIntake(**patient.model_dump())` re-runs the age-derivation
validator (`rebuild`). -/
def node_extract (today : Date) (data : List (Field × FVal)) (st : IntakeSt) :
    IntakeSt :=
  let userText := st.input_text
  let ctx := st.next_step
  let inline := infer_inline_updates userText ctx
  let p := applyInline st.patient inline
  let p := applyData p (dataGuards ctx data)
  { st with patient := rebuild today p, inline := inline }

/-! ## Dialog stage nodes (`agents/nodes.py`) -/

def msgAskProblem : String :=
  "I’m sorry you’re dealing with this — I’ll help you quickly.\nIn a few words, what’s the main issue (e.g., ‘allergies’, ‘tooth pain’, ‘fever’)?"

def msgAskDetails : String :=
  "Thanks. Could you describe it a bit more?\nHow long, how severe (mild/moderate/severe), anything that makes it better/worse?"

def msgAskReturning : String := "Have you visited us before? (yes/no)"

def msgAskDoctor : String :=
  "Do you have a preferred doctor? If yes, share the name; else say \x27any\x27."

def msgAskDate (mins : Int) : String :=
  "Okay. Your appointment will be " ++ toString mins ++
    " minutes.\nWhich date works for you? (YYYY-MM-DD)"

def msgRetEmail : String := "To send your confirmation, what’s your email?"

def msgNewEmail : String :=
  "Share your email so I can send the confirmation & intake form."

def msgPhone : String := "And your phone number for SMS reminders?"

def msgInsCarrierPre : String :=
  "Before your visit, do you have insurance? If yes, please share your insurance carrier name."

def msgInsCarrierFin : String :=
  "Do you have insurance? If yes, please share your insurance carrier name."

def msgInsMember : String := "Please share your insurance member ID."

def msgInsGroup : String := "And the insurance group number?"

def msgReady (doctor date : String) : String :=
  "Great. I’ll fetch available slots for " ++ doctor ++ " on " ++ date ++
    ". Please pick one in the UI and I’ll confirm."

/-- `nodes.node_ensure_problem`. -/
def node_ensure_problem (st : IntakeSt) : IntakeSt :=
  let p := st.patient
  if strFalsy p.problem then
    { st with message := some msgAskProblem, next_step := some "ask_problem" }
  else if strFalsy p.problem_description then
    { st with message := some msgAskDetails, next_step := some "ask_problem_details" }
  else st

/-- `nodes.node_ask_returning`: consumes the `_yes_no` sentinel from the
inline mapping, writing `returning_patient` and the derived duration
atomically; otherwise asks the returning question. -/
def node_ask_returning (st : IntakeSt) : IntakeSt :=
  let p := st.patient
  match p.returning_patient with
  | some _ => st
  | none =>
    match st.inline.lookup Field.yesNo with
    | some v =>
      let b := fvalTruthy v
      let p := { p with returning_patient := some b,
                        appointment_duration_min := some (assign_duration (some b)) }
      { st with patient := p,
                inline := st.inline.filter fun kv => kv.1 != Field.yesNo }
    | none =>
      { st with message := some msgAskReturning, next_step := some "ask_returning" }

/-- `nodes.node_ensure_doctor`: ask when unset, else normalize
null-preference tokens to the literal `"any doctor"`. -/
def node_ensure_doctor (st : IntakeSt) : IntakeSt :=
  let p := st.patient
  if strFalsy p.doctor then
    { st with message := some msgAskDoctor, next_step := some "ask_doctor" }
  else
    let doc := lowerStr (pyStrip (orEmpty p.doctor))
    if anyDoctorTokens.contains doc then
      { st with patient := { p with doctor := some "any doctor" } }
    else st

/-- `mins = p.appointment_duration_min or assign_duration(p.returning_patient)`,
the duration backfill shared by the two date guards. -/
def backfillMins (p : PatientIntake) : Int :=
  if intTruthy p.appointment_duration_min then p.appointment_duration_min.getD 0
  else assign_duration p.returning_patient

/-- `nodes.node_ensure_date`: when the date is unset, backfill the
duration and ask.  The local `who` of the source is unused there and
omitted. -/
def node_ensure_date (st : IntakeSt) : IntakeSt :=
  let p := st.patient
  if strFalsy p.appointment_date then
    { st with patient := { p with appointment_duration_min := some (backfillMins p) },
              message := some (msgAskDate (backfillMins p)),
              next_step := some "ask_date" }
  else st

/-- `nodes.node_ensure_contact`. -/
def node_ensure_contact (st : IntakeSt) : IntakeSt :=
  let p := st.patient
  if boolTruthy p.returning_patient then
    if strFalsy p.email then
      { st with message := some msgRetEmail, next_step := some "ask_email" }
    else if strFalsy p.phone then
      { st with message := some msgPhone, next_step := some "ask_phone" }
    else st
  else
    if strFalsy p.email then
      { st with message := some msgNewEmail, next_step := some "ask_email" }
    else if strFalsy p.phone then
      { st with message := some msgPhone, next_step := some "ask_phone" }
    else st

/-- The self-pay token set of `nodes.py` (it lacks `"no insurance"`,
unlike the inferencer's negative set). -/
def nodeSelfPayTokens : List String := ["self-pay", "self pay", "no", "none"]

/-- `nodes.node_ensure_insurance`: inert until `booking_done`; skipped for
returning patients; self-pay short-circuits, forcing member id and group
to the empty string. -/
def node_ensure_insurance (st : IntakeSt) : IntakeSt :=
  if !st.booking_done then st
  else
    let p := st.patient
    if boolTruthy p.returning_patient then st
    else
      let carrier := lowerStr (pyStrip (orEmpty p.insurance_carrier))
      if carrier == "" then
        { st with message := some msgInsCarrierPre,
                  next_step := some "ask_insurance_carrier" }
      else if nodeSelfPayTokens.contains carrier then
        { st with patient :=
            { p with insurance_carrier := some "self-pay",
                     insurance_member_id := some "",
                     insurance_group := some "" } }
      else if pyStrip (orEmpty p.insurance_member_id) == "" then
        { st with message := some msgInsMember,
                  next_step := some "ask_insurance_member_id" }
      else if pyStrip (orEmpty p.insurance_group) == "" then
        { st with message := some msgInsGroup,
                  next_step := some "ask_insurance_group" }
      else st

/-- The shared tail of `node_finalize` (lines 243–258): the date guard,
then the terminal ready message with marker `"done"`. -/
def finalizeTail (st : IntakeSt) (p : PatientIntake) : IntakeSt :=
  if strFalsy p.appointment_date then
    { st with patient := { p with appointment_duration_min := some (backfillMins p) },
              message := some (msgAskDate (backfillMins p)),
              next_step := some "ask_date" }
  else
    { st with patient := p,
              message := some (msgReady
                (match p.doctor with
                 | some d => if d == "" then "any doctor" else d
                 | none => "any doctor")
                (match p.appointment_date with
                 | some d => d
                 | none => "None")),
              next_step := some "done" }

/-- The guards of `node_finalize` after the doctor guard and
normalization, applied to the (possibly normalized) patient `p`. -/
def finalizeAfterDoctor (st : IntakeSt) (p : PatientIntake) : IntakeSt :=
  if strFalsy p.problem then
      { st with patient := p, message := some msgAskProblem,
                next_step := some "ask_problem" }
    else if strFalsy p.problem_description then
      { st with patient := p, message := some msgAskDetails,
                next_step := some "ask_problem_details" }
    else
      match p.returning_patient with
      | none =>
        { st with patient := p, message := some msgAskReturning,
                  next_step := some "ask_returning" }
      | some r =>
        if r then
          if strFalsy p.email then
            { st with patient := p, message := some msgRetEmail,
                      next_step := some "ask_email" }
          else if strFalsy p.phone then
            { st with patient := p, message := some msgPhone,
                      next_step := some "ask_phone" }
          else finalizeTail st p
        else
          let carrier := lowerStr (pyStrip (orEmpty p.insurance_carrier))
          if carrier == "" then
            { st with patient := p, message := some msgInsCarrierFin,
                      next_step := some "ask_insurance_carrier" }
          else if !(nodeSelfPayTokens.contains carrier) &&
              pyStrip (orEmpty p.insurance_member_id) == "" then
            { st with patient := p, message := some msgInsMember,
                      next_step := some "ask_insurance_member_id" }
          else if !(nodeSelfPayTokens.contains carrier) &&
              pyStrip (orEmpty p.insurance_group) == "" then
            { st with patient := p, message := some msgInsGroup,
                      next_step := some "ask_insurance_group" }
          else if strFalsy p.email then
            { st with patient := p, message := some msgNewEmail,
                      next_step := some "ask_email" }
          else if strFalsy p.phone then
            { st with patient := p, message := some msgPhone,
                      next_step := some "ask_phone" }
          else finalizeTail st p

/-- `nodes.node_finalize`: re-validates every precondition from scratch.
Its guard order is doctor → problem → description → returning-status →
(returning: email → phone | new: carrier → member → group → email →
phone) → date → ready. -/
def node_finalize (st : IntakeSt) : IntakeSt :=
  let p := st.patient
  if strFalsy p.doctor then
    { st with message := some msgAskDoctor, next_step := some "ask_doctor" }
  else
    finalizeAfterDoctor st
      (if anyDoctorTokens.contains (lowerStr (pyStrip (orEmpty p.doctor))) then
        { p with doctor := some "any doctor" }
      else p)

/-! ## The stage graph (`agents/flow.py`)

`_build_graph` adds the eight nodes with **unconditional** edges
START → extract → ensure_problem → ask_returning → ensure_doctor →
ensure_date → ensure_contact → finalize → ensure_insurance → END,
so every node runs on every turn, in that order. -/

/-- The seven stage nodes, in graph edge order. -/
def runStages (st : IntakeSt) : IntakeSt :=
  node_ensure_insurance (node_finalize (node_ensure_contact (node_ensure_date
    (node_ensure_doctor (node_ask_returning (node_ensure_problem st))))))

/-- One full turn of the compiled graph `intake_graph.invoke`. -/
def pipelineTurn (today : Date) (data : List (Field × FVal)) (st : IntakeSt) :
    IntakeSt :=
  runStages (node_extract today data st)

/-- Multi-turn driver: thread the state (record and context marker)
through successive turns, one extractor-oracle output per turn; returns
the state after each turn. -/
def runTurns (today : Date) :
    IntakeSt → List (String × List (Field × FVal)) → List IntakeSt
  | _, [] => []
  | st, (q, data) :: rest =>
    let st' := pipelineTurn today data { st with input_text := q }
    st' :: runTurns today st' rest

/-! ## The tolerant oracle-output parser (`extract.safe_json_loads`)

`json.loads` is Python standard library; it is the explicit parameter
`loads` here, returning `none` where Python raises and the parsed JSON
value otherwise.  Note that a JSON value need not be an object. -/

inductive Json where
  | obj (fields : List (String × Json))
  | arr (elems : List Json)
  | num (n : Int)
  | str (s : String)
  | bool (b : Bool)
  | null

/-- Is the value a JSON object (a Python mapping)? -/
def isMapping : Json → Bool
  | .obj _ => true
  | _ => false

/-- The code-fence loop: try `json.loads(part.strip())` on each segment of
`text.split("```")`, returning the first success. -/
def firstParse (loads : String → Option Json) : List String → Option Json
  | [] => none
  | p :: rest =>
    match loads (pyStrip p) with
    | some j => some j
    | none => firstParse loads rest

/-- `text.find("{")` as an `Option` (Python returns `-1` when absent). -/
def findBrace (cs : List Char) (c : Char) : Option Nat :=
  findFirstIdx (fun i => cs.get? i == some c) cs.length

/-- `text.rfind("}")` as an `Option`. -/
def rfindBrace (cs : List Char) (c : Char) : Option Nat :=
  findLastIdx (fun i => cs.get? i == some c) cs.length

/-- `extract.safe_json_loads`: raw text, then each code-fenced segment,
then the first-to-last balanced-brace substring, else the empty mapping.
Whatever `json.loads` returns on success is returned as-is. -/
def safe_json_loads (loads : String → Option Json) (text : String) : Json :=
  let text := pyStrip text
  match loads text with
  | some j => j
  | none =>
    let fenced :=
      if containsSub text "```" then firstParse loads (splitOnStr text "```")
      else none
    match fenced with
    | some j => j
    | none =>
      let cs := text.toList
      match findBrace cs '{', rfindBrace cs '}' with
      | some s, some e =>
        if e > s then
          match loads (String.mk ((cs.drop s).take (e + 1 - s))) with
          | some j => j
          | none => Json.obj []
        else Json.obj []
      | _, _ => Json.obj []

/-- A concrete model of `json.loads` for witnesses: it parses exactly the
input `"3"` (to the JSON number 3, as the standard library does) and
rejects everything else. -/
def loadsDemo : String → Option Json :=
  fun s => if s == "3" then some (Json.num 3) else none

/-! ## Helper notions used by the theorems -/

/-- Is the key one of the three insurance fields? -/
def isInsuranceKey (k : Field) : Bool :=
  k == Field.insurance_carrier || k == Field.insurance_member_id ||
    k == Field.insurance_group

/-- The update keys that hold strings in the record. -/
def strField : Field → Bool
  | .age => false
  | .yesNo => false
  | _ => true

/-- Does the record's insurance carrier normalize to the self-pay set of
the stage nodes? -/
def carrierSelfPayB (p : PatientIntake) : Bool :=
  nodeSelfPayTokens.contains (lowerStr (pyStrip (orEmpty p.insurance_carrier)))

/-- Every context marker the stage nodes can emit, plus the terminal
marker.  There is no duration question and no dob question. -/
def allowedMarkers : List String :=
  ["ask_problem", "ask_problem_details", "ask_returning", "ask_doctor",
   "ask_date", "ask_email", "ask_phone", "ask_insurance_carrier",
   "ask_insurance_member_id", "ask_insurance_group", "done"]

def markerAllowed (o : Option String) : Bool :=
  match o with
  | some s => allowedMarkers.contains s
  | none => false

/-- The duration/returning consistency invariant of the record: a known
returning status forces the matching derived duration, and any set
duration is one of the two derived values. -/
def durInvB (p : PatientIntake) : Bool :=
  (match p.returning_patient with
   | none => true
   | some b => p.appointment_duration_min == some (assign_duration (some b))) &&
  (match p.appointment_duration_min with
   | none => true
   | some d => d == 30 || d == 60)

/-- The stage nodes that run before `node_finalize` in the graph. -/
def preFinalize (st : IntakeSt) : IntakeSt :=
  node_ensure_contact (node_ensure_date (node_ensure_doctor
    (node_ask_returning (node_ensure_problem st))))

/-- A sample current date, fixed for the closed counterexamples. -/
def sampleToday : Date := ⟨2025, 9, 12⟩

/-- The end-to-end scenario of the spec: its turn inputs, each paired
with an extractor-oracle output contributing no fields (the scenario's
deterministic test double for the generative extractor). -/
def c3turns : List (String × List (Field × FVal)) :=
  [("", []), ("fever", []), ("3 days, mild", []), ("no", []), ("any", []),
   ("2025-09-20", []), ("a@b.com", []), ("9876543210", [])]

/-! ## Helper lemmas -/

lemma getF_setF_ne (p : PatientIntake) (k k' : Field) (v : FVal) (h : k ≠ k') :
    getF (setF p k' v) k = getF p k := by
  cases k' <;> cases v <;> cases k <;> simp_all [setF, getF]

lemma fieldEmpty_congr (p q : PatientIntake) (k : Field)
    (h : getF p k = getF q k) : fieldEmpty p k = fieldEmpty q k := by
  unfold fieldEmpty
  rw [h]

/-- The extractor-side merge never changes a field that is already
non-empty under the merge guard. -/
lemma applyData_preserves_nonempty (data : List (Field × FVal))
    (p : PatientIntake) (k : Field) (h : fieldEmpty p k = false) :
    getF (applyData p data) k = getF p k := by
  induction data generalizing p with
  | nil => rfl
  | cons kv rest ih =>
    show getF (applyData (if isBlank kv.2 then p
      else if fieldEmpty p kv.1 then setF p kv.1 kv.2 else p) rest) k = getF p k
    by_cases hb : isBlank kv.2 = true
    · simp only [hb, if_true]
      exact ih p h
    · simp only [Bool.not_eq_true] at hb
      simp only [hb, Bool.false_eq_true, if_false]
      by_cases he : fieldEmpty p kv.1 = true
      · have hk : k ≠ kv.1 := by
          intro hkk
          rw [hkk] at h
          rw [h] at he
          exact Bool.false_ne_true he
        have hg : getF (setF p kv.1 kv.2) k = getF p k :=
          getF_setF_ne p k kv.1 kv.2 hk
        simp only [he, if_true]
        rw [ih (setF p kv.1 kv.2) (by rw [fieldEmpty_congr _ p k hg]; exact h)]
        exact hg
      · simp only [Bool.not_eq_true] at he
        simp only [he, Bool.false_eq_true, if_false]
        exact ih p h

lemma setF_returning (p : PatientIntake) (k : Field) (v : FVal) :
    (setF p k v).returning_patient = p.returning_patient := by
  cases k <;> cases v <;> simp [setF]

lemma setF_duration (p : PatientIntake) (k : Field) (v : FVal) :
    (setF p k v).appointment_duration_min = p.appointment_duration_min := by
  cases k <;> cases v <;> simp [setF]

lemma applyInline_returning (upd : List (Field × FVal)) (p : PatientIntake) :
    (applyInline p upd).returning_patient = p.returning_patient := by
  induction upd generalizing p with
  | nil => rfl
  | cons kv rest ih =>
    show (applyInline (setF p kv.1 kv.2) rest).returning_patient = _
    rw [ih, setF_returning]

lemma applyInline_duration (upd : List (Field × FVal)) (p : PatientIntake) :
    (applyInline p upd).appointment_duration_min = p.appointment_duration_min := by
  induction upd generalizing p with
  | nil => rfl
  | cons kv rest ih =>
    show (applyInline (setF p kv.1 kv.2) rest).appointment_duration_min = _
    rw [ih, setF_duration]

lemma applyData_returning (data : List (Field × FVal)) (p : PatientIntake) :
    (applyData p data).returning_patient = p.returning_patient := by
  induction data generalizing p with
  | nil => rfl
  | cons kv rest ih =>
    show (applyData (if isBlank kv.2 then p
      else if fieldEmpty p kv.1 then setF p kv.1 kv.2 else p) rest).returning_patient = _
    split
    · exact ih p
    · split
      · rw [ih, setF_returning]
      · exact ih p

lemma applyData_duration (data : List (Field × FVal)) (p : PatientIntake) :
    (applyData p data).appointment_duration_min = p.appointment_duration_min := by
  induction data generalizing p with
  | nil => rfl
  | cons kv rest ih =>
    show (applyData (if isBlank kv.2 then p
      else if fieldEmpty p kv.1 then setF p kv.1 kv.2 else p) rest).appointment_duration_min = _
    split
    · exact ih p
    · split
      · rw [ih, setF_duration]
      · exact ih p

lemma rebuild_returning (today : Date) (p : PatientIntake) :
    (rebuild today p).returning_patient = p.returning_patient := by
  unfold rebuild
  repeat' split
  all_goals rfl

lemma rebuild_duration (today : Date) (p : PatientIntake) :
    (rebuild today p).appointment_duration_min = p.appointment_duration_min := by
  unfold rebuild
  repeat' split
  all_goals rfl

lemma durInvB_ext (p q : PatientIntake)
    (h1 : p.returning_patient = q.returning_patient)
    (h2 : p.appointment_duration_min = q.appointment_duration_min) :
    durInvB p = durInvB q := by
  unfold durInvB
  rw [h1, h2]

lemma node_extract_returning (today : Date) (data : List (Field × FVal))
    (st : IntakeSt) :
    (node_extract today data st).patient.returning_patient =
      st.patient.returning_patient := by
  show (rebuild today _).returning_patient = _
  rw [rebuild_returning, applyData_returning, applyInline_returning]

lemma node_extract_duration (today : Date) (data : List (Field × FVal))
    (st : IntakeSt) :
    (node_extract today data st).patient.appointment_duration_min =
      st.patient.appointment_duration_min := by
  show (rebuild today _).appointment_duration_min = _
  rw [rebuild_duration, applyData_duration, applyInline_duration]

lemma booking_problem (st : IntakeSt) :
    (node_ensure_problem st).booking_done = st.booking_done := by
  simp only [node_ensure_problem]
  repeat' split
  all_goals rfl

lemma booking_returning (st : IntakeSt) :
    (node_ask_returning st).booking_done = st.booking_done := by
  simp only [node_ask_returning]
  repeat' split
  all_goals rfl

lemma booking_doctor (st : IntakeSt) :
    (node_ensure_doctor st).booking_done = st.booking_done := by
  simp only [node_ensure_doctor]
  repeat' split
  all_goals rfl

lemma booking_date (st : IntakeSt) :
    (node_ensure_date st).booking_done = st.booking_done := by
  simp only [node_ensure_date]
  repeat' split
  all_goals rfl

lemma booking_contact (st : IntakeSt) :
    (node_ensure_contact st).booking_done = st.booking_done := by
  simp only [node_ensure_contact]
  repeat' split
  all_goals rfl

lemma booking_finalizeTail (st : IntakeSt) (p : PatientIntake) :
    (finalizeTail st p).booking_done = st.booking_done := by
  simp only [finalizeTail]
  repeat' split
  all_goals rfl

lemma booking_afterDoctor (st : IntakeSt) (p : PatientIntake) :
    (finalizeAfterDoctor st p).booking_done = st.booking_done := by
  simp only [finalizeAfterDoctor]
  repeat' split
  all_goals first | rfl | apply booking_finalizeTail

lemma booking_finalize (st : IntakeSt) :
    (node_finalize st).booking_done = st.booking_done := by
  simp only [node_finalize]
  split
  · rfl
  · apply booking_afterDoctor

lemma booking_preFinalize (st : IntakeSt) :
    (preFinalize st).booking_done = st.booking_done := by
  unfold preFinalize
  rw [booking_contact, booking_date, booking_doctor, booking_returning,
    booking_problem]

/-- With no booking-complete signal, `node_ensure_insurance` is the
identity. -/
lemma insurance_skip (st : IntakeSt) (h : st.booking_done = false) :
    node_ensure_insurance st = st := by
  unfold node_ensure_insurance
  rw [h]
  rfl

lemma answers_finalizeTail (st : IntakeSt) (p : PatientIntake) :
    (finalizeTail st p).message.isSome = true ∧
      (finalizeTail st p).next_step.isSome = true := by
  simp only [finalizeTail]
  repeat' split
  all_goals exact ⟨rfl, rfl⟩

lemma answers_afterDoctor (st : IntakeSt) (p : PatientIntake) :
    (finalizeAfterDoctor st p).message.isSome = true ∧
      (finalizeAfterDoctor st p).next_step.isSome = true := by
  simp only [finalizeAfterDoctor]
  repeat' split
  all_goals first | exact ⟨rfl, rfl⟩ | apply answers_finalizeTail

/-- `node_finalize` writes a message and a marker on every path. -/
lemma finalize_answers (st : IntakeSt) :
    (node_finalize st).message.isSome = true ∧
      (node_finalize st).next_step.isSome = true := by
  simp only [node_finalize]
  split
  · exact ⟨rfl, rfl⟩
  · apply answers_afterDoctor

lemma marker_finalizeTail (st : IntakeSt) (p : PatientIntake) :
    markerAllowed (finalizeTail st p).next_step = true := by
  simp only [finalizeTail]
  repeat' split
  all_goals rfl

lemma marker_afterDoctor (st : IntakeSt) (p : PatientIntake) :
    markerAllowed (finalizeAfterDoctor st p).next_step = true := by
  simp only [finalizeAfterDoctor]
  repeat' split
  all_goals first | rfl | apply marker_finalizeTail

/-- `node_finalize` only emits markers from the fixed marker list. -/
lemma marker_finalize (st : IntakeSt) :
    markerAllowed (node_finalize st).next_step = true := by
  simp only [node_finalize]
  split
  · rfl
  · apply marker_afterDoctor

lemma marker_insurance (st : IntakeSt)
    (h : markerAllowed st.next_step = true) :
    markerAllowed (node_ensure_insurance st).next_step = true := by
  simp only [node_ensure_insurance]
  repeat' split
  all_goals first | exact h | rfl

/-- Every marker a full turn can return is from the fixed marker list. -/
lemma pipeline_marker (today : Date) (data : List (Field × FVal))
    (st : IntakeSt) :
    markerAllowed (pipelineTurn today data st).next_step = true := by
  show markerAllowed (node_ensure_insurance (node_finalize _)).next_step = true
  exact marker_insurance _ (marker_finalize _)

lemma durInv_problem (st : IntakeSt) :
    durInvB (node_ensure_problem st).patient = durInvB st.patient := by
  simp only [node_ensure_problem]
  repeat' split
  all_goals rfl

lemma durInv_doctor (st : IntakeSt) :
    durInvB (node_ensure_doctor st).patient = durInvB st.patient := by
  simp only [node_ensure_doctor]
  repeat' split
  all_goals rfl

lemma durInv_contact (st : IntakeSt) :
    durInvB (node_ensure_contact st).patient = durInvB st.patient := by
  simp only [node_ensure_contact]
  repeat' split
  all_goals rfl

lemma durInv_insurance (st : IntakeSt) :
    durInvB (node_ensure_insurance st).patient = durInvB st.patient := by
  simp only [node_ensure_insurance]
  repeat' split
  all_goals rfl

lemma durInv_ask_returning (st : IntakeSt)
    (h : durInvB st.patient = true) :
    durInvB (node_ask_returning st).patient = true := by
  simp only [node_ask_returning]
  split
  · exact h
  · split
    · rename_i v _
      cases hv : fvalTruthy v <;>
        simp [durInvB, assign_duration, boolTruthy, hv]
    · exact h

/-- The duration backfill of the date guards preserves the invariant. -/
lemma durInv_backfill (p : PatientIntake) (h : durInvB p = true) :
    durInvB { p with appointment_duration_min := some (backfillMins p) } = true := by
  rcases hr : p.returning_patient with _ | b <;>
    rcases hd : p.appointment_duration_min with _ | d <;>
      simp_all [durInvB, backfillMins, intTruthy, assign_duration, boolTruthy]
  rcases h with h | h
  all_goals simp [h]

lemma durInv_date (st : IntakeSt) (h : durInvB st.patient = true) :
    durInvB (node_ensure_date st).patient = true := by
  simp only [node_ensure_date]
  split
  · exact durInv_backfill st.patient h
  · exact h

lemma durInv_finalizeTail (st : IntakeSt) (p : PatientIntake)
    (h : durInvB p = true) :
    durInvB (finalizeTail st p).patient = true := by
  simp only [finalizeTail]
  split
  · exact durInv_backfill p h
  · exact h

lemma durInv_afterDoctor (st : IntakeSt) (p : PatientIntake)
    (h : durInvB p = true) :
    durInvB (finalizeAfterDoctor st p).patient = true := by
  simp only [finalizeAfterDoctor]
  repeat' split
  all_goals first | exact h | exact durInv_finalizeTail st p h

lemma durInv_finalize (st : IntakeSt) (h : durInvB st.patient = true) :
    durInvB (node_finalize st).patient = true := by
  simp only [node_finalize]
  split
  · exact h
  · apply durInv_afterDoctor
    split
    · exact h
    · exact h

lemma durInv_extract (today : Date) (data : List (Field × FVal))
    (st : IntakeSt) :
    durInvB (node_extract today data st).patient = durInvB st.patient :=
  durInvB_ext _ _ (node_extract_returning today data st)
    (node_extract_duration today data st)

/-- The duration/returning invariant is preserved by a full turn. -/
lemma durInv_pipeline (today : Date) (data : List (Field × FVal))
    (st : IntakeSt) (h : durInvB st.patient = true) :
    durInvB (pipelineTurn today data st).patient = true := by
  show durInvB (node_ensure_insurance (node_finalize (node_ensure_contact
    (node_ensure_date (node_ensure_doctor (node_ask_returning
      (node_ensure_problem (node_extract today data st)))))))).patient = true
  rw [durInv_insurance]
  apply durInv_finalize
  rw [durInv_contact]
  apply durInv_date
  rw [durInv_doctor]
  apply durInv_ask_returning
  rw [durInv_problem, durInv_extract]
  exact h

lemma carrierSelfPay_congr (p q : PatientIntake)
    (h : p.insurance_carrier = q.insurance_carrier) :
    carrierSelfPayB p = carrierSelfPayB q := by
  unfold carrierSelfPayB
  rw [h]

lemma carrier_problem (st : IntakeSt) :
    (node_ensure_problem st).patient.insurance_carrier =
      st.patient.insurance_carrier := by
  simp only [node_ensure_problem]
  repeat' split
  all_goals rfl

lemma carrier_ask_returning (st : IntakeSt) :
    (node_ask_returning st).patient.insurance_carrier =
      st.patient.insurance_carrier := by
  simp only [node_ask_returning]
  repeat' split
  all_goals rfl

lemma carrier_doctor (st : IntakeSt) :
    (node_ensure_doctor st).patient.insurance_carrier =
      st.patient.insurance_carrier := by
  simp only [node_ensure_doctor]
  repeat' split
  all_goals rfl

lemma carrier_date (st : IntakeSt) :
    (node_ensure_date st).patient.insurance_carrier =
      st.patient.insurance_carrier := by
  simp only [node_ensure_date]
  repeat' split
  all_goals rfl

lemma carrier_contact (st : IntakeSt) :
    (node_ensure_contact st).patient.insurance_carrier =
      st.patient.insurance_carrier := by
  simp only [node_ensure_contact]
  repeat' split
  all_goals rfl

lemma carrier_finalizeTail (st : IntakeSt) (p : PatientIntake) :
    (finalizeTail st p).patient.insurance_carrier = p.insurance_carrier := by
  simp only [finalizeTail]
  repeat' split
  all_goals rfl

lemma carrier_afterDoctor (st : IntakeSt) (p : PatientIntake) :
    (finalizeAfterDoctor st p).patient.insurance_carrier =
      p.insurance_carrier := by
  simp only [finalizeAfterDoctor]
  repeat' split
  all_goals first | rfl | apply carrier_finalizeTail

lemma carrier_finalize (st : IntakeSt) :
    (node_finalize st).patient.insurance_carrier =
      st.patient.insurance_carrier := by
  simp only [node_finalize]
  split
  · rfl
  · rw [carrier_afterDoctor]
    split
    · rfl
    · rfl

/-- When the carrier is already self-pay, the finalize tail never asks the
member-id or group question. -/
lemma selfpay_finalizeTail_marker (st : IntakeSt) (p : PatientIntake) :
    (finalizeTail st p).next_step ≠ some "ask_insurance_member_id" ∧
      (finalizeTail st p).next_step ≠ some "ask_insurance_group" := by
  simp only [finalizeTail]
  split
  · exact ⟨by simp, by simp⟩
  · exact ⟨by simp, by simp⟩

lemma selfpay_afterDoctor_marker (st : IntakeSt) (p : PatientIntake)
    (h : carrierSelfPayB p = true) :
    (finalizeAfterDoctor st p).next_step ≠ some "ask_insurance_member_id" ∧
      (finalizeAfterDoctor st p).next_step ≠ some "ask_insurance_group" := by
  simp only [finalizeAfterDoctor]
  repeat' split
  all_goals
    first
      | exact selfpay_finalizeTail_marker st p
      | simp_all [carrierSelfPayB]

lemma selfpay_finalize_marker (st : IntakeSt)
    (h : carrierSelfPayB st.patient = true) :
    (node_finalize st).next_step ≠ some "ask_insurance_member_id" ∧
      (node_finalize st).next_step ≠ some "ask_insurance_group" := by
  simp only [node_finalize]
  split
  · exact ⟨by simp, by simp⟩
  · apply selfpay_afterDoctor_marker
    split
    · exact h
    · exact h

/-- When the carrier is already self-pay, the insurance stage changes no
message or marker. -/
lemma selfpay_insurance_next (st : IntakeSt)
    (h : carrierSelfPayB st.patient = true) :
    (node_ensure_insurance st).next_step = st.next_step := by
  simp only [node_ensure_insurance]
  repeat' split
  all_goals first | rfl | simp_all [carrierSelfPayB, nodeSelfPayTokens]

lemma selfpay_preserved_problem (st : IntakeSt)
    (h : carrierSelfPayB st.patient = true) :
    carrierSelfPayB (node_ensure_problem st).patient = true := by
  rw [carrierSelfPay_congr _ st.patient (carrier_problem st)]
  exact h

lemma selfpay_preserved_chain (st : IntakeSt)
    (h : carrierSelfPayB st.patient = true) :
    carrierSelfPayB (preFinalize st).patient = true := by
  unfold preFinalize
  rw [carrierSelfPay_congr _ _ (carrier_contact _),
    carrierSelfPay_congr _ _ (carrier_date _),
    carrierSelfPay_congr _ _ (carrier_doctor _),
    carrierSelfPay_congr _ _ (carrier_ask_returning _),
    carrierSelfPay_congr _ _ (carrier_problem _)]
  exact h

/-- A record whose carrier normalizes to self-pay has a non-empty carrier
field under the merge guard. -/
lemma selfpay_fieldEmpty (p : PatientIntake)
    (h : carrierSelfPayB p = true) :
    fieldEmpty p Field.insurance_carrier = false := by
  rcases hc : p.insurance_carrier with _ | s
  · unfold carrierSelfPayB at h
    rw [hc] at h
    exact absurd h (by decide)
  · by_cases hs : s = ""
    · subst hs
      unfold carrierSelfPayB at h
      rw [hc] at h
      exact absurd h (by decide)
    · simp [fieldEmpty, getF, hc, hs]

lemma applyData_carrier (p : PatientIntake) (data : List (Field × FVal))
    (h : fieldEmpty p Field.insurance_carrier = false) :
    (applyData p data).insurance_carrier = p.insurance_carrier := by
  have hg := applyData_preserves_nonempty data p Field.insurance_carrier h
  rcases h1 : (applyData p data).insurance_carrier with _ | a <;>
    rcases h2 : p.insurance_carrier with _ | b <;>
      simp_all [getF]

lemma agnostic_no_insurance (t low : String) :
    (agnosticUpdates t low).all (fun kv => !isInsuranceKey kv.1) = true := by
  unfold agnosticUpdates
  repeat' split
  all_goals rfl

lemma agnostic_no_age (t low : String) :
    (agnosticUpdates t low).all (fun kv => kv.1 != Field.age) = true := by
  unfold agnosticUpdates
  repeat' split
  all_goals rfl

lemma carrierBranch_no_age (t low : String) :
    (carrierBranch t low).all (fun kv => kv.1 != Field.age) = true := by
  simp only [carrierBranch]
  repeat' split
  all_goals first | rfl | apply agnostic_no_age

lemma doctorCtx_no_age (t low : String) :
    (doctorCtxBranch t low).all (fun kv => kv.1 != Field.age) = true := by
  unfold doctorCtxBranch
  repeat' split
  all_goals first | rfl | apply agnostic_no_age

lemma returningCtx_no_age (t low : String) :
    (returningCtxBranch t low).all (fun kv => kv.1 != Field.age) = true := by
  unfold returningCtxBranch
  repeat' split
  all_goals first | rfl | apply agnostic_no_age

lemma dateCtx_no_age (t low : String) :
    (dateCtxBranch t low).all (fun kv => kv.1 != Field.age) = true := by
  unfold dateCtxBranch
  repeat' split
  all_goals first | rfl | apply agnostic_no_age

lemma emailCtx_no_age (t low : String) :
    (emailCtxBranch t low).all (fun kv => kv.1 != Field.age) = true := by
  unfold emailCtxBranch
  repeat' split
  all_goals first | rfl | apply agnostic_no_age

lemma phoneCtx_no_age (t low : String) :
    (phoneCtxBranch t low).all (fun kv => kv.1 != Field.age) = true := by
  unfold phoneCtxBranch
  repeat' split
  all_goals first | rfl | apply agnostic_no_age

lemma problemCtx_no_age (t low : String) :
    (problemCtxBranch t low).all (fun kv => kv.1 != Field.age) = true := by
  unfold problemCtxBranch
  repeat' split
  all_goals rfl

lemma inferCore_no_age (t low : String) (ctx : Option String) :
    (inferCore t low ctx).all (fun kv => kv.1 != Field.age) = true := by
  unfold inferCore
  repeat' split
  all_goals
    first
      | rfl
      | apply agnostic_no_age
      | apply carrierBranch_no_age
      | apply doctorCtx_no_age
      | apply returningCtx_no_age
      | apply dateCtx_no_age
      | apply emailCtx_no_age
      | apply phoneCtx_no_age
      | apply problemCtx_no_age
      | (unfold memberCtxBranch; repeat' split; all_goals rfl)
      | (unfold groupCtxBranch; repeat' split; all_goals rfl)

/-- The inline inferencer never emits an `age` update. -/
lemma infer_no_age (t : String) (ctx : Option String) :
    (infer_inline_updates t ctx).all (fun kv => kv.1 != Field.age) = true := by
  unfold infer_inline_updates
  apply inferCore_no_age

lemma getF_setF_str (p : PatientIntake) (k : Field) (s : String)
    (h : strField k = true) :
    getF (setF p k (FVal.s s)) k = some (FVal.s s) := by
  cases k <;> simp_all [setF, getF, strField]

lemma doctorCtx_no_ins (t low : String) :
    (doctorCtxBranch t low).all (fun kv => !isInsuranceKey kv.1) = true := by
  unfold doctorCtxBranch
  repeat' split
  all_goals first | rfl | apply agnostic_no_insurance

lemma returningCtx_no_ins (t low : String) :
    (returningCtxBranch t low).all (fun kv => !isInsuranceKey kv.1) = true := by
  unfold returningCtxBranch
  repeat' split
  all_goals first | rfl | apply agnostic_no_insurance

lemma dateCtx_no_ins (t low : String) :
    (dateCtxBranch t low).all (fun kv => !isInsuranceKey kv.1) = true := by
  unfold dateCtxBranch
  repeat' split
  all_goals first | rfl | apply agnostic_no_insurance

lemma emailCtx_no_ins (t low : String) :
    (emailCtxBranch t low).all (fun kv => !isInsuranceKey kv.1) = true := by
  unfold emailCtxBranch
  repeat' split
  all_goals first | rfl | apply agnostic_no_insurance

lemma phoneCtx_no_ins (t low : String) :
    (phoneCtxBranch t low).all (fun kv => !isInsuranceKey kv.1) = true := by
  unfold phoneCtxBranch
  repeat' split
  all_goals first | rfl | apply agnostic_no_insurance

lemma problemCtx_no_ins (t low : String) :
    (problemCtxBranch t low).all (fun kv => !isInsuranceKey kv.1) = true := by
  unfold problemCtxBranch
  repeat' split
  all_goals rfl

lemma inferCore_no_ins (t low : String) (ctx : Option String)
    (h1 : ctx ≠ some "ask_insurance_carrier")
    (h2 : ctx ≠ some "ask_insurance_member_id")
    (h3 : ctx ≠ some "ask_insurance_group") :
    (inferCore t low ctx).all (fun kv => !isInsuranceKey kv.1) = true := by
  unfold inferCore
  split
  · apply doctorCtx_no_ins
  split
  · apply returningCtx_no_ins
  split
  · apply dateCtx_no_ins
  split
  · apply emailCtx_no_ins
  split
  · apply phoneCtx_no_ins
  split
  · next hc => exact absurd (eq_of_beq hc) h1
  split
  · next hc => exact absurd (eq_of_beq hc) h2
  split
  · next hc => exact absurd (eq_of_beq hc) h3
  split
  · apply problemCtx_no_ins
  split
  · rfl
  · apply agnostic_no_insurance

/-! ## Claims -/

/-- Claim C1, counterexample: the record holds the non-empty doctor
`"Dr. Smith"`, yet the per-turn merge of the reply `"any"` in the
`ask_doctor` context replaces it with `"any doctor"` — the inline
(inferencer) merge loop of `node_extract` overwrites unconditionally, so
a field already holding a non-empty value *is* changed by the merge. -/
theorem C1_counterexample :
    strFalsy ({ doctor := some "Dr. Smith" } : PatientIntake).doctor = false ∧
    (node_extract sampleToday []
      { patient := { doctor := some "Dr. Smith" }, input_text := "any",
        next_step := some "ask_doctor" }).patient.doctor = some "any doctor" ∧
    (some "any doctor" : Option String) ≠ some "Dr. Smith" := by
  refine ⟨rfl, rfl, ?_⟩
  decide

/-- Claim C1, amended: only the extractor-side merge loop of
`node_extract` obeys the non-overwrite policy — it never changes a field
that is non-empty under the merge guard, skips blank string values, and
writes a candidate into an empty field — while the inferencer-side loop
is applied first and writes unconditionally (so the inferencer wins ties
but can also replace a non-empty field). -/
theorem C1_amended :
    (∀ (data : List (Field × FVal)) (p : PatientIntake) (k : Field),
      fieldEmpty p k = false → getF (applyData p data) k = getF p k) ∧
    (∀ (p : PatientIntake) (k : Field) (s : String), pyStrip s = "" →
      applyData p [(k, FVal.s s)] = p) ∧
    (∀ (p : PatientIntake) (k : Field) (v : FVal), isBlank v = false →
      fieldEmpty p k = true → applyData p [(k, v)] = setF p k v) ∧
    (∀ (p : PatientIntake) (k : Field) (s : String), strField k = true →
      getF (applyInline p [(k, FVal.s s)]) k = some (FVal.s s)) := by
  refine ⟨applyData_preserves_nonempty, ?_, ?_, ?_⟩
  · intro p k s h
    simp [applyData, isBlank, h]
  · intro p k v h1 h2
    simp [applyData, h1, h2]
  · intro p k s h
    exact getF_setF_str p k s h

/-- Claim C1, witness for the amended theorem at concrete inputs. -/
theorem C1_amended_witness :
    getF (applyData { doctor := some "Dr. X" }
      [(Field.doctor, FVal.s "Dr. Y")] : PatientIntake) Field.doctor =
      getF ({ doctor := some "Dr. X" } : PatientIntake) Field.doctor ∧
    applyData ({} : PatientIntake) [(Field.email, FVal.s "  ")] = {} ∧
    applyData ({} : PatientIntake) [(Field.email, FVal.s "a@b.com")] =
      setF {} Field.email (FVal.s "a@b.com") ∧
    getF (applyInline ({ doctor := some "Dr. X" } : PatientIntake)
      [(Field.doctor, FVal.s "any doctor")]) Field.doctor =
      some (FVal.s "any doctor") :=
  ⟨C1_amended.1 _ _ _ (by decide), C1_amended.2.1 _ _ _ (by decide),
   C1_amended.2.2.1 _ _ _ (by decide) (by decide),
   C1_amended.2.2.2 _ _ _ (by decide)⟩

/-- Claim C2, counterexample: from the empty initial state, the first
unmet stage (`node_ensure_problem`) sets the marker `ask_problem`, but
the graph's edges are unconditional, every later node still runs, and
the full turn returns `node_finalize`'s marker `ask_doctor` instead —
the pipeline does not halt at the first unmet stage. -/
theorem C2_counterexample :
    (node_ensure_problem (node_extract sampleToday [] {})).next_step =
      some "ask_problem" ∧
    (pipelineTurn sampleToday [] {}).next_step = some "ask_doctor" ∧
    (pipelineTurn sampleToday [] {}).next_step ≠ some "ask_problem" := by
  refine ⟨rfl, rfl, ?_⟩
  decide

/-- Claim C2, amended: each stage writes its message and marker and
returns, but the graph runs every node on every turn, so later stages
overwrite earlier ones.  While the booking-complete flag is unset the
insurance node is the identity, so the message and marker the caller
receives are exactly those of `node_finalize` run after the earlier
stages — and `node_finalize` writes both on every path, following its
own internal guard order (doctor → problem → description → returning →
contact/insurance branch → date → ready). -/
theorem C2_amended (st : IntakeSt) (h : st.booking_done = false) :
    runStages st = node_finalize (preFinalize st) ∧
    (runStages st).message.isSome = true ∧
    (runStages st).next_step.isSome = true := by
  have hb : (node_finalize (preFinalize st)).booking_done = false := by
    rw [booking_finalize, booking_preFinalize]
    exact h
  have he : runStages st = node_finalize (preFinalize st) :=
    insurance_skip _ hb
  refine ⟨he, ?_, ?_⟩ <;> rw [he]
  · exact (finalize_answers _).1
  · exact (finalize_answers _).2

/-- Claim C2, witness: the amended theorem at the empty initial state. -/
theorem C2_amended_witness :
    runStages {} = node_finalize (preFinalize {}) ∧
    (runStages ({} : IntakeSt)).message.isSome = true ∧
    (runStages ({} : IntakeSt)).next_step.isSome = true :=
  C2_amended {} rfl

/-- Claim C3, counterexample: the spec's eight-turn scenario does not
produce the claimed question order — already the first turn returns the
doctor question, not the problem-label question. -/
theorem C3_counterexample :
    (runTurns sampleToday {} c3turns).map (fun s => s.next_step) ≠
      [some "ask_problem", some "ask_problem_details", some "ask_returning",
       some "ask_doctor", some "ask_date", some "ask_email", some "ask_phone",
       some "done"] := by
  intro h
  have h1 : (runTurns sampleToday {} c3turns).map (fun s => s.next_step) =
      [some "ask_doctor", some "ask_doctor", some "ask_doctor",
       some "ask_problem_details", some "ask_returning", some "ask_returning",
       some "ask_returning", some "ask_returning"] := by decide
  rw [h1] at h
  exact absurd h (by decide)

/-- Claim C3, amended: the turn sequence
`["", "fever", "3 days, mild", "no", "any", "2025-09-20", "a@b.com",
"9876543210"]` from the empty state with `booking_done` false yields the
markers `[ask_doctor, ask_doctor, ask_doctor, ask_problem_details,
ask_returning, ask_returning, ask_returning, ask_returning]`: the reply
`"no"` is consumed as the doctor preference (`"any doctor"`), `"any"`
becomes the problem description `"any."`, `"2025-09-20"` is stored as
`dob` (the date question was never the active marker), the email and
phone are captured by the context-agnostic fallbacks, `returning_patient`
is never set, the duration is backfilled to 60, finalize never reaches
the ready message, no insurance question is ever asked, and
`booking_done` stays false.  The ambient current date is fixed at 2025-09-12; it only
influences the derived `age` (here `-1`, since the stray dob is in the
future), which the original claim never mentions. -/
theorem C3_amended :
    (runTurns sampleToday {} c3turns).map (fun s => s.next_step) =
      [some "ask_doctor", some "ask_doctor", some "ask_doctor",
       some "ask_problem_details", some "ask_returning", some "ask_returning",
       some "ask_returning", some "ask_returning"] ∧
    (runTurns sampleToday {} c3turns).getLast? = some
      { input_text := "9876543210",
        patient :=
          { dob := some "2025-09-20", age := some (-1),
            doctor := some "any doctor", problem := some "fever",
            problem_description := some "any.", email := some "a@b.com",
            phone := some "9876543210",
            appointment_duration_min := some 60 },
        message := some msgAskReturning,
        next_step := some "ask_returning",
        inline := [(Field.phone, FVal.s "9876543210")],
        booking_done := false } := by
  constructor
  · decide
  · decide

/-- Claim C4, counterexample: in the `ask_insurance_carrier` context the
reply `"2025-09-11"` is consumed as the insurance carrier, not as a dob
update — the claim's "dob for every other context marker" fails. -/
theorem C4_counterexample :
    infer_inline_updates "2025-09-11" (some "ask_insurance_carrier") =
      [(Field.insurance_carrier, FVal.s "2025-09-11")] ∧
    (infer_inline_updates "2025-09-11"
      (some "ask_insurance_carrier")).all (fun kv => kv.1 != Field.dob) = true := by
  constructor
  · decide
  · decide

/-- Claim C4, amended: the reply `"2025-09-11"` yields `appointment_date`
exactly when the marker is `ask_date`, and `dob` for every marker outside
the consuming contexts (including no marker, and the fall-through
contexts `ask_doctor`, `ask_returning`, `ask_email`, `ask_phone`); in the
three insurance contexts and the two problem contexts the same reply is
consumed as that context's own field instead. -/
theorem C4_amended :
    (∀ ctx : Option String,
      ctx ≠ some "ask_date" → ctx ≠ some "ask_problem" →
      ctx ≠ some "ask_problem_details" → ctx ≠ some "ask_insurance_carrier" →
      ctx ≠ some "ask_insurance_member_id" → ctx ≠ some "ask_insurance_group" →
      infer_inline_updates "2025-09-11" ctx =
        [(Field.dob, FVal.s "2025-09-11")]) ∧
    infer_inline_updates "2025-09-11" (some "ask_date") =
      [(Field.appointment_date, FVal.s "2025-09-11")] ∧
    infer_inline_updates "2025-09-11" (some "ask_insurance_carrier") =
      [(Field.insurance_carrier, FVal.s "2025-09-11")] ∧
    infer_inline_updates "2025-09-11" (some "ask_insurance_member_id") =
      [(Field.insurance_member_id, FVal.s "2025-09-11")] ∧
    infer_inline_updates "2025-09-11" (some "ask_insurance_group") =
      [(Field.insurance_group, FVal.s "2025-09-11")] ∧
    infer_inline_updates "2025-09-11" (some "ask_problem") =
      [(Field.problem, FVal.s "2025-09-11")] ∧
    infer_inline_updates "2025-09-11" (some "ask_problem_details") =
      [(Field.problem_description, FVal.s "2025-09-11.")] := by
  refine ⟨?_, by decide, by decide, by decide, by decide, by decide, by decide⟩
  intro ctx h1 h2 h3 h4 h5 h6
  rcases ctx with _ | s
  · decide
  · simp only [ne_eq, Option.some.injEq] at h1 h2 h3 h4 h5 h6
    by_cases hd : s = "ask_doctor"
    · subst hd
      decide
    by_cases hr : s = "ask_returning"
    · subst hr
      decide
    by_cases he : s = "ask_email"
    · subst he
      decide
    by_cases hp : s = "ask_phone"
    · subst hp
      decide
    show inferCore "2025-09-11" "2025-09-11" (some s) =
      [(Field.dob, FVal.s "2025-09-11")]
    unfold inferCore
    simp only [beq_iff_eq, Option.some.injEq]
    simp only [hd, hr, he, hp, h1, h2, h3, h4, h5, h6, if_false]
    decide

/-- Claim C4, witness for the amended theorem: the `ask_doctor` context
falls through to the agnostic dob rule. -/
theorem C4_amended_witness :
    infer_inline_updates "2025-09-11" (some "ask_doctor") =
      [(Field.dob, FVal.s "2025-09-11")] :=
  C4_amended.1 (some "ask_doctor") (by decide) (by decide) (by decide)
    (by decide) (by decide) (by decide)

/-- Claim C5, confirmed: when the record's insurance carrier normalizes
to a self-pay token, (1) a full stage pass never emits the member-id or
group question, (2) the insurance stage (running post-booking for a
non-returning patient) forces the carrier to the literal `"self-pay"`
and the member id and group to the empty string, (3) a negative reply in
the carrier context writes the whole cascade atomically, and (4) the
extractor-side merge can never change a self-pay carrier. -/
theorem C5_selfpay :
    (∀ st : IntakeSt, carrierSelfPayB st.patient = true →
      (runStages st).next_step ≠ some "ask_insurance_member_id" ∧
      (runStages st).next_step ≠ some "ask_insurance_group") ∧
    (∀ st : IntakeSt, carrierSelfPayB st.patient = true →
      st.booking_done = true →
      boolTruthy st.patient.returning_patient = false →
      (node_ensure_insurance st).patient.insurance_carrier = some "self-pay" ∧
      (node_ensure_insurance st).patient.insurance_member_id = some "" ∧
      (node_ensure_insurance st).patient.insurance_group = some "") ∧
    (∀ reply : String,
      selfPayTokens.contains (lowerStr (pyStrip reply)) = true →
      infer_inline_updates reply (some "ask_insurance_carrier") =
        [(Field.insurance_carrier, FVal.s "self-pay"),
         (Field.insurance_member_id, FVal.s ""),
         (Field.insurance_group, FVal.s "")]) ∧
    (∀ (p : PatientIntake) (data : List (Field × FVal)),
      carrierSelfPayB p = true → carrierSelfPayB (applyData p data) = true) := by
  refine ⟨?_, ?_, ?_, ?_⟩
  · intro st h
    have hps := selfpay_preserved_chain st h
    have hf : carrierSelfPayB (node_finalize (preFinalize st)).patient = true := by
      rw [carrierSelfPay_congr _ _ (carrier_finalize _)]
      exact hps
    have hm := selfpay_finalize_marker (preFinalize st) hps
    have hn := selfpay_insurance_next (node_finalize (preFinalize st)) hf
    show (node_ensure_insurance (node_finalize (preFinalize st))).next_step ≠ _ ∧
      (node_ensure_insurance (node_finalize (preFinalize st))).next_step ≠ _
    rw [hn]
    exact hm
  · intro st h hb hr
    simp only [node_ensure_insurance, hb, hr, Bool.not_true, Bool.false_eq_true,
      if_false]
    repeat' split
    all_goals
      first
        | exact ⟨rfl, rfl, rfl⟩
        | simp_all [carrierSelfPayB, nodeSelfPayTokens]
  · intro reply h
    show carrierBranch (pyStrip reply) (lowerStr (pyStrip reply)) = _
    unfold carrierBranch
    rw [h]
    rfl
  · intro p data h
    have hne := selfpay_fieldEmpty p h
    have hc := applyData_carrier p data hne
    rw [carrierSelfPay_congr _ _ hc]
    exact h

/-- Claim C5, witness at a concrete self-pay state and reply. -/
theorem C5_selfpay_witness :
    ((runStages { patient := { insurance_carrier := some "self-pay" } }).next_step ≠
        some "ask_insurance_member_id" ∧
      (runStages { patient := { insurance_carrier := some "self-pay" } }).next_step ≠
        some "ask_insurance_group") ∧
    ((node_ensure_insurance
        { patient := { insurance_carrier := some "no", returning_patient := some false },
          booking_done := true }).patient.insurance_carrier = some "self-pay" ∧
      (node_ensure_insurance
        { patient := { insurance_carrier := some "no", returning_patient := some false },
          booking_done := true }).patient.insurance_member_id = some "" ∧
      (node_ensure_insurance
        { patient := { insurance_carrier := some "no", returning_patient := some false },
          booking_done := true }).patient.insurance_group = some "") ∧
    infer_inline_updates "no insurance" (some "ask_insurance_carrier") =
      [(Field.insurance_carrier, FVal.s "self-pay"),
       (Field.insurance_member_id, FVal.s ""),
       (Field.insurance_group, FVal.s "")] ∧
    carrierSelfPayB (applyData { insurance_carrier := some "self pay" }
      [(Field.insurance_carrier, FVal.s "Aetna")]) = true :=
  ⟨C5_selfpay.1 _ (by decide), C5_selfpay.2.1 _ (by decide) rfl (by decide),
   C5_selfpay.2.2.1 _ (by decide), C5_selfpay.2.2.2 _ _ (by decide)⟩

/-- Claim C6, counterexample: one turn from the empty record already
sets `appointment_duration_min = 60` while `returning_patient` is still
unknown — the date guard backfills the duration before the returning
status was ever answered, so the duration is not "set only after
returning_patient is known". -/
theorem C6_counterexample :
    (pipelineTurn sampleToday [] {}).patient.appointment_duration_min =
      some 60 ∧
    (pipelineTurn sampleToday [] {}).patient.returning_patient = none := by
  constructor
  · decide
  · decide

/-- Claim C6, amended: the duration is only ever written as
`assign_duration` of the returning status current at the write (30 when
true, 60 when false or still unknown) or preserved; hence the invariant
"returning known ⇒ duration equals the derived value, and any set
duration is 30 or 60" is preserved by every full turn — but the date
guard may set 60 while the status is still unknown.  The duration is
never solicited: every marker a turn can return comes from the fixed
question list, which contains no duration question. -/
theorem C6_amended (today : Date) (data : List (Field × FVal))
    (st : IntakeSt) (h : durInvB st.patient = true) :
    durInvB (pipelineTurn today data st).patient = true ∧
    markerAllowed (pipelineTurn today data st).next_step = true :=
  ⟨durInv_pipeline today data st h, pipeline_marker today data st⟩

/-- Claim C6, witness: the amended theorem at the empty initial state. -/
theorem C6_amended_witness :
    durInvB (pipelineTurn sampleToday [] {}).patient = true ∧
    markerAllowed (pipelineTurn sampleToday [] {}).next_step = true :=
  C6_amended sampleToday [] {} rfl

/-- Claim C7, counterexample: the reply `"2025-99-99"` matches the dob
shape but fails calendar parsing, yet the merge *does* write it into the
record (the schema validator swallows the parse failure and merely skips
the age derivation) — the dob field of a record need not parse as a
calendar date. -/
theorem C7_counterexample :
    (node_extract sampleToday []
      { input_text := "2025-99-99" }).patient.dob = some "2025-99-99" ∧
    parseYMD "2025-99-99" = none ∧
    (node_extract sampleToday []
      { input_text := "2025-99-99" }).patient.age = none := by
  refine ⟨?_, ?_, ?_⟩ <;> decide

/-- Claim C7, amended: a dob candidate that fails calendar parsing is
still written to the record; the record rebuild leaves such a record
unchanged (no age is derived, the dob is kept), and no stage ever asks
or re-asks a dob question — no dob marker exists in the pipeline. -/
theorem C7_amended :
    (∀ (today : Date) (p : PatientIntake) (s : String), parseYMD s = none →
      rebuild today { p with dob := some s, age := none } =
        { p with dob := some s, age := none }) ∧
    (∀ (today : Date) (data : List (Field × FVal)) (st : IntakeSt),
      (pipelineTurn today data st).next_step ≠ some "ask_dob") := by
  constructor
  · intro today p s h
    unfold rebuild
    split
    · rfl
    · simp [h]
  · intro today data st heq
    have hm := pipeline_marker today data st
    rw [heq] at hm
    exact absurd hm (by decide)

/-- Claim C7, witness for the amended theorem at two failing inputs:
the invalid month/day `"2025-99-99"` and the out-of-range year
`"0000-01-01"` (Python's `datetime.MINYEAR` is 1, so `strptime` raises
there too). -/
theorem C7_amended_witness :
    rebuild sampleToday { dob := some "2025-99-99", age := none } =
      { dob := some "2025-99-99", age := none } ∧
    rebuild sampleToday { dob := some "0000-01-01", age := none } =
      { dob := some "0000-01-01", age := none } ∧
    (pipelineTurn sampleToday [] {}).next_step ≠ some "ask_dob" :=
  ⟨C7_amended.1 sampleToday {} "2025-99-99" (by decide),
   C7_amended.1 sampleToday {} "0000-01-01" (by decide),
   C7_amended.2 sampleToday [] {}⟩

/-- Claim C8: `safe_json_loads` is *not* total-to-mapping — when the raw
oracle text is valid JSON that is not an object (here the bare number
`"3"`, which `json.loads` parses to the integer 3), the function returns
that non-mapping value unchanged, contradicting its own `Dict[str, Any]`
annotation; `node_extract`'s subsequent `data.items()` then raises. -/
theorem C8_nonmapping (loads : String → Option Json)
    (h : loads "3" = some (Json.num 3)) :
    safe_json_loads loads "3" = Json.num 3 ∧
    isMapping (safe_json_loads loads "3") = false := by
  have ht : pyStrip "3" = "3" := by decide
  unfold safe_json_loads
  rw [ht]
  simp [h, isMapping]

/-- Claim C8, witness with a concrete `json.loads` model. -/
theorem C8_nonmapping_witness :
    safe_json_loads loadsDemo "3" = Json.num 3 ∧
    isMapping (safe_json_loads loadsDemo "3") = false :=
  C8_nonmapping loadsDemo rfl

/-- Claim C9, confirmed: for a record built with `dob = "1990-06-15"`
and no explicit age, the rebuild derives
`age = today.year - 1990 - [ (today.month, today.day) < (6, 15) ]` for
every current date; an explicitly present age is never overridden; and
the inline inferencer never writes `age` from a reply. -/
theorem C9_age_derivation :
    (∀ today : Date, (rebuild today { dob := some "1990-06-15" }).age =
      some ((today.year : Int) - 1990 -
        (if pairLt (today.month, today.day) (6, 15) then 1 else 0))) ∧
    (∀ (today : Date) (p : PatientIntake) (a : Int),
      (rebuild today { p with age := some a }).age = some a) ∧
    (∀ (t : String) (ctx : Option String),
      (infer_inline_updates t ctx).all (fun kv => kv.1 != Field.age) = true) := by
  refine ⟨?_, ?_, ?_⟩
  · intro today
    rfl
  · intro today p a
    rfl
  · intro t ctx
    exact infer_no_age t ctx

/-- Claim C10, confirmed: for every reply and every context marker other
than the three insurance contexts, the inline inferencer returns no
insurance field updates — the context-agnostic insurance block of the
source sits after an unconditional `return` inside the symptom-keyword
branch and is unreachable, so it contributes nothing to any result. -/
theorem C10_no_insurance_outside_context (t : String) (ctx : Option String)
    (h1 : ctx ≠ some "ask_insurance_carrier")
    (h2 : ctx ≠ some "ask_insurance_member_id")
    (h3 : ctx ≠ some "ask_insurance_group") :
    (infer_inline_updates t ctx).all (fun kv => !isInsuranceKey kv.1) = true := by
  unfold infer_inline_updates
  exact inferCore_no_ins _ _ ctx h1 h2 h3

/-- Claim C10, witness: volunteered insurance details with no active
marker produce no insurance updates (here, no updates at all). -/
theorem C10_witness :
    (infer_inline_updates "yes Aetna M123 G9" none).all
      (fun kv => !isInsuranceKey kv.1) = true :=
  C10_no_insurance_outside_context "yes Aetna M123 G9" none
    (by decide) (by decide) (by decide)

end Intake
